import Mathlib

/-!
Shallow embedding of `src/remotearchivedb.js` (wabac.js): the payload
resolution engine (`RemoteArchiveDB.loadSource`, `loadPayload`,
`commitPayload`) and the streaming dedup reader (`PayloadBufferingReader`).

External collaborators (the base `ArchiveDB` catalog store, the
`SingleRecordWARCLoader` parser, `createLoader` block loaders, browser
built-ins `URL`/`Headers`, and IndexedDB transaction plumbing) are out of
scope per the spec and are modelled as an explicit environment `Env` of
total functions, plus fault-injection flags for the fallible store puts.

Stateful IndexedDB object stores are modelled as association lists inside
an explicit `DBState`, threaded through the functions.  `DBState` also
carries two ghost instrumentation counters used only to state properties:
`fetches` (number of `getRange` calls issued) and `commitCount` (number of
successful dedup-store puts), and the `log` of console messages.

JavaScript specifics that matter and are modelled faithfully:
  * `loadSource`'s `catch` block refers to a variable `url` that is
    `const`-declared inside the preceding `else` block; at the `throw
    new AuthNeeded(url)` site the name `url` is not in scope in either
    construction variant, so evaluating the throw raises a
    `ReferenceError` instead.  This is modelled by `JSError.referenceError`.
  * `loadPayload` calls `this.commitPayload(digest)` with a single
    argument, so inside `commitPayload` the `payload` parameter is bound
    to the digest string and the `digest` parameter is `undefined`; the
    keyed IndexedDB `put` of a record whose key path value is `undefined`
    fails (DataError), is caught by `commitPayload`'s own handler and
    logged, leaving the store unchanged.
  * JS truthiness: a `Uint8Array` (even empty) and any object are truthy;
    `undefined`/`null` and the empty string are falsy.
-/

set_option autoImplicit false

namespace Wabac

/-- A JS value that can land in the dedup-store `payload` field: either
real payload bytes (`Uint8Array`) or a string (which is what the buggy
one-argument `commitPayload(digest)` call passes). -/
inductive JSVal where
  | bytes (b : List Nat)
  | str (s : String)
  deriving DecidableEq, Repr

/-- JS truthiness of an optional value of type `JSVal`: `undefined` and the
empty string are falsy; byte arrays (even empty) and non-empty strings are
truthy. -/
def truthyVal : Option JSVal → Bool
  | none => false
  | some (JSVal.bytes _) => true
  | some (JSVal.str s) => s ≠ ""

/-- JS truthiness of an optional string (`undefined` and `""` are falsy). -/
def truthyStr : Option String → Bool
  | none => false
  | some s => s ≠ ""

/-- Byte length of a `JSVal` (`payload.length` in `commitPayload`). -/
def JSVal.len : JSVal → Nat
  | JSVal.bytes b => b.length
  | JSVal.str s => s.length

/-- `cdx.source`: locator of the raw record (`path`, byte `start`,
byte `length`). -/
structure Source where
  path : String
  start : Nat
  length : Nat
  deriving DecidableEq, Repr

/-- A catalog entry ("cdx").  Mutation of the shared JS object is modelled
by returning an updated snapshot.  `respHeaders` is a header list,
`extraOpts` an opaque id, `payload` optional inline bytes. -/
structure CDX where
  url : String
  ts : String
  digest : Option String
  mime : Option String
  respHeaders : Option (List (String × String))
  source : Source
  extraOpts : Option Nat
  payload : Option (List Nat)
  deriving DecidableEq, Repr

/-- Output of the external single-record WARC parser
(`SingleRecordWARCLoader(...).load()`). `reader` is an opaque stream id. -/
structure ParsedRecord where
  url : String
  ts : String
  digest : Option String
  origURL : Option String
  origTS : Option String
  respHeaders : Option (List (String × String))
  extraOpts : Option Nat
  payload : Option (List Nat)
  reader : Option Nat
  deriving DecidableEq, Repr

/-- Console messages emitted by the engine (`console.log`/`console.warn`). -/
inductive LogMsg where
  | noRecord (url : String)
  | wrongUrl (expected got : String)
  | wrongTs (expected got : String)
  | wrongDigest (expected got : Option String)
  | revisitLoop
  | resourceUpdateError (url : String)
  | payloadCommitError
  | payloadNotConsumed (left : Int)
  deriving DecidableEq, Repr

/-- Exceptions that can escape the embedded functions.
`referenceError` models the JS `ReferenceError` raised when the `catch`
block of `loadSource` evaluates the out-of-scope name `url`;
`authNeeded` models `throw new AuthNeeded(url)` (never reachable in the
code as written); `storeError` models a rejected unguarded store `put`. -/
inductive JSError where
  | authNeeded (url : String)
  | referenceError (name : String)
  | storeError
  deriving DecidableEq, Repr

/-- Decidable equality for `Except`, needed to evaluate the embedded
functions on concrete inputs with `decide`. -/
instance instDecEqExcept {ε α : Type} [DecidableEq ε] [DecidableEq α] :
    DecidableEq (Except ε α)
  | Except.ok a, Except.ok b =>
      decidable_of_iff (a = b) (by simp)
  | Except.error e, Except.error f =>
      decidable_of_iff (e = f) (by simp)
  | Except.ok _, Except.error _ => isFalse (by simp)
  | Except.error _, Except.ok _ => isFalse (by simp)

/-- Upsert into an association list (models an IndexedDB keyed `put`). -/
def setAssoc {α : Type} (l : List (String × α)) (k : String) (v : α) :
    List (String × α) :=
  match l with
  | [] => [(k, v)]
  | (k', v') :: rest =>
      if k' = k then (k, v) :: rest else (k', v') :: setAssoc rest k v

/-- Lookup in an association list (models an IndexedDB keyed `get`). -/
def getAssoc {α : Type} (l : List (String × α)) (k : String) : Option α :=
  match l with
  | [] => none
  | (k', v') :: rest => if k' = k then some v' else getAssoc rest k

/-- Upsert a catalog entry keyed by `(url, ts)` (models
`put` on the `resources` object store). -/
def putResource (cdx : CDX) : List CDX → List CDX
  | [] => [cdx]
  | e :: rest =>
      if e.url = cdx.url ∧ e.ts = cdx.ts then cdx :: rest
      else e :: putResource cdx rest

/-- The explicit state of the IndexedDB-backed stores, the console log and
two ghost counters used to state the claims (`fetches`: issued range
fetches; `commitCount`: successful dedup-store puts). -/
structure DBState where
  resources : List CDX
  payloadStore : List (String × JSVal)
  digestRef : List (String × Nat)
  log : List LogMsg
  fetches : Nat
  commitCount : Nat
  deriving DecidableEq, Repr

/-- Append a console message to the log. -/
def logMsg (st : DBState) (m : LogMsg) : DBState :=
  { st with log := st.log ++ [m] }

/-- Ghost counter bump for one issued `getRange` fetch. -/
def incFetch (st : DBState) : DBState :=
  { st with fetches := st.fetches + 1 }

/-- The loader value `getRange` is invoked on: either the configured loader
object (`this.loader`), or a loader constructed by
`createLoader(url, headers)` in the url-prefix variant. -/
inductive LoaderV where
  | obj (l : Nat)
  | created (url : String) (headers : List (String × String))
  deriving DecidableEq, Repr

/-- Result of `loader.getRange(start, length, true)`: a stream id, or a
failure carrying an optional HTTP status (`e.status`, which may be
`undefined` for non-HTTP failures). -/
inductive FetchOutcome where
  | ok (stream : Nat)
  | fail (status : Option Nat)
  deriving DecidableEq, Repr

/-- Environment of external collaborators, modelled as total functions:
`localPayload` is `super.loadPayload` (the base `ArchiveDB` local lookup,
which may consult the payload store); `lookupUrl` is
`ArchiveDB.lookupUrl(url, ts)`; `resolveURL` is
`new URL(path, base).href`; `getRange` is the block loader;
`parse` is `new SingleRecordWARCLoader(stream).load()` (on a `null`
stream, `parse none`).  `resourcePutFails` and `payloadPutFails` inject
storage faults for the catalog put and the dedup/ref-store transaction. -/
structure Env where
  localPayload : List (String × JSVal) → CDX → Option (List Nat)
  lookupUrl : String → Option String → Option CDX
  resolveURL : String → String → String
  getRange : LoaderV → Nat → Nat → FetchOutcome
  parse : Option Nat → Option ParsedRecord
  resourcePutFails : CDX → Bool
  payloadPutFails : Bool

/-- The `RemoteArchiveDB` instance state set up by the constructor: either
`remoteUrlPrefix`/`headers` (string argument; the field is named
`remoteUrlBase` here for purely lexical reasons) or a configured `loader`
object, plus the `useRefCounts` flag (constructor sets it to `false`). -/
structure RemoteArchiveDB where
  remoteUrlBase : Option String
  headers : Option (List (String × String))
  loader : Option Nat
  useRefCounts : Bool
  deriving DecidableEq, Repr

/-- The constructor `new RemoteArchiveDB(name, remotePrefixOrLoader,
headers)`: a string second argument selects the url-prefix variant,
anything else is kept as the loader object. -/
def mkRemoteArchiveDB (remotePrefixOrLoader : String ⊕ Nat)
    (headers : Option (List (String × String))) : RemoteArchiveDB :=
  match remotePrefixOrLoader with
  | Sum.inl p =>
      { remoteUrlBase := some p, headers := headers, loader := none,
        useRefCounts := false }
  | Sum.inr l =>
      { remoteUrlBase := none, headers := none, loader := some l,
        useRefCounts := false }

/-- `RemoteArchiveDB.loadSource(source)`.  Selects the loader, issues
`getRange(start, length, true)`; on a failure with `e.status` 401 or 403
the code executes `throw new AuthNeeded(url)`, but `url` is block-scoped
to the `else` branch of the loader selection and is not in scope in the
`catch` block, so the throw itself raises a `ReferenceError` (in both
construction variants); any other failure falls through to `return null`. -/
def loadSource (db : RemoteArchiveDB) (env : Env) (st : DBState)
    (source : Source) : Except JSError (DBState × Option Nat) :=
  match db.loader with
  | some l =>
      match env.getRange (LoaderV.obj l) source.start source.length with
      | FetchOutcome.ok s => Except.ok (incFetch st, some s)
      | FetchOutcome.fail status =>
          if status = some 401 ∨ status = some 403 then
            Except.error (JSError.referenceError "url")
          else
            Except.ok (incFetch st, none)
  | none =>
      -- const url = new URL(source.path, this.remoteUrlPrefix).href
      match env.getRange
          (LoaderV.created (env.resolveURL source.path (db.remoteUrlBase.getD ""))
            (db.headers.getD []))
          source.start source.length with
      | FetchOutcome.ok s => Except.ok (incFetch st, some s)
      | FetchOutcome.fail status =>
          if status = some 401 ∨ status = some 403 then
            Except.error (JSError.referenceError "url")
          else
            Except.ok (incFetch st, none)

/-- `RemoteArchiveDB.commitPayload(payload, digest)`.  Returns early when
`payload` is falsy; otherwise opens a `["payload", "digestRef"]`
transaction, puts `{payload, digest}` keyed by `digest` and, when
`useRefCounts`, refreshes `size` on an existing ref row only.  All store
errors are caught by the internal `try`/`catch` and logged: a put whose
key path value is `undefined` (the one-argument call site) and an injected
`payloadPutFails` fault both abort the transaction, leaving the stores
unchanged. -/
def commitPayload (env : Env) (useRefCounts : Bool) (payload : Option JSVal)
    (digest : Option String) (st : DBState) : DBState :=
  if truthyVal payload = false then st
  else
    match digest with
    | none => logMsg st LogMsg.payloadCommitError
    | some d =>
        if env.payloadPutFails then logMsg st LogMsg.payloadCommitError
        else
          let v := payload.getD (JSVal.bytes [])
          let st1 := { st with payloadStore := setAssoc st.payloadStore d v,
                               commitCount := st.commitCount + 1 }
          if useRefCounts then
            match getAssoc st1.digestRef d with
            | some _ =>
                { st1 with digestRef := setAssoc st1.digestRef d v.len }
            | none => st1
          else st1

/-- The value `loadPayload` resolves to: inline payload bytes, or a
streaming reader (raw when the record has no truthy digest, otherwise
wrapped into a `PayloadBufferingReader` bound to the digest and url). -/
inductive LPResult where
  | bytes (b : List Nat)
  | rawReader (sid : Nat)
  | bufferingReader (sid : Nat) (digest : Option String) (url : String)
  deriving DecidableEq, Repr

/-- Tail of the revisit branch of `loadPayload` once a payload is in hand:
copy `respHeaders`/`mime` from the (possibly recursively resolved) original
entry onto `cdx`, `delete cdx.payload`, and `await this.db.put("resources",
cdx)` — this put is *not* inside any `try`, so a store failure propagates
to the caller as an exception. -/
def finishRevisit (env : Env) (st : DBState) (cdx orig : CDX)
    (p : LPResult) : Except JSError (DBState × CDX × Option LPResult) :=
  let cdx2 := { cdx with respHeaders := orig.respHeaders, mime := orig.mime,
                         payload := none }
  if env.resourcePutFails cdx2 then Except.error JSError.storeError
  else
    Except.ok ({ st with resources := putResource cdx2 st.resources },
      cdx2, some p)

/-- The non-revisit tail of `loadPayload` (after validation, `origURL`
falsy): wrap the reader when a truthy digest is present, commit an inline
payload via the one-argument call `this.commitPayload(digest)` (so the
digest string lands in the `payload` parameter and the `digest` parameter
is `undefined`), update `cdx` (`respHeaders`, `digest`, `extraOpts` when
truthy), and put it into `resources` inside a `try` whose `catch` logs
`Resource Update Error` — in-memory `cdx` mutations survive the failure,
the store is left unchanged.  Returns the payload if present, else the
(possibly wrapped) reader. -/
def nonRevisit (db : RemoteArchiveDB) (env : Env) (st : DBState) (cdx : CDX)
    (remote : ParsedRecord) : Except JSError (DBState × CDX × Option LPResult) :=
  let digest := remote.digest
  let reader1 : Option LPResult :=
    match remote.reader with
    | none => none
    | some sid =>
        if truthyStr digest then some (LPResult.bufferingReader sid digest cdx.url)
        else some (LPResult.rawReader sid)
  let payload := remote.payload
  if payload = none ∧ reader1 = none then Except.ok (st, cdx, none)
  else
    let st2 :=
      if payload.isSome then
        commitPayload env db.useRefCounts (digest.map JSVal.str) none st
      else st
    let cdx2 := { cdx with respHeaders := remote.respHeaders, digest := digest,
                           extraOpts :=
                             match remote.extraOpts with
                             | some e => some e
                             | none => cdx.extraOpts }
    let st3 :=
      if env.resourcePutFails cdx2 then
        logMsg st2 (LogMsg.resourceUpdateError cdx.url)
      else { st2 with resources := putResource cdx2 st2.resources }
    match payload with
    | some b => Except.ok (st3, cdx2, some (LPResult.bytes b))
    | none => Except.ok (st3, cdx2, reader1)

/-- `RemoteArchiveDB.loadPayload(cdx, depth)`.  Checks local availability
(`super.loadPayload`), early-returns when `cdx` already has resolved
headers and a non-revisit mime; otherwise fetches (`loadSource`), parses,
validates `url`/`ts`/`digest` against `cdx` (any mismatch: logged, `null`),
follows a truthy `origURL` revisit indirection (recursing only while
`depth < 2`, else logging the loop warning), and otherwise runs the
non-revisit tail. -/
def loadPayload (db : RemoteArchiveDB) (env : Env) (st : DBState) (cdx : CDX)
    (depth : Nat) : Except JSError (DBState × CDX × Option LPResult) :=
  let payload0 := env.localPayload st.payloadStore cdx
  if payload0.isSome ∧ cdx.respHeaders.isSome ∧ cdx.mime ≠ some "warc/revisit"
  then Except.ok (st, cdx, payload0.map LPResult.bytes)
  else
    match loadSource db env st cdx.source with
    | Except.error e => Except.error e
    | Except.ok (st1, responseStream) =>
        match env.parse responseStream with
        | none => Except.ok (logMsg st1 (LogMsg.noRecord cdx.url), cdx, none)
        | some remote =>
            if remote.url ≠ cdx.url then
              Except.ok (logMsg st1 (LogMsg.wrongUrl cdx.url remote.url), cdx, none)
            else if remote.ts ≠ cdx.ts then
              Except.ok (logMsg st1 (LogMsg.wrongTs cdx.ts remote.ts), cdx, none)
            else if remote.digest ≠ cdx.digest then
              Except.ok (logMsg st1 (LogMsg.wrongDigest cdx.digest remote.digest),
                cdx, none)
            else if truthyStr remote.origURL then
              match env.lookupUrl (remote.origURL.getD "") remote.origTS with
              | none => Except.ok (st1, cdx, none)
              | some origResult =>
                  if payload0.isSome then
                    finishRevisit env st1 cdx origResult
                      (LPResult.bytes (payload0.getD []))
                  else if _h : depth < 2 then
                    match loadPayload db env st1 origResult (depth + 1) with
                    | Except.error e => Except.error e
                    | Except.ok (st2, orig2, p) =>
                        match p with
                        | none => Except.ok (st2, cdx, none)
                        | some pres => finishRevisit env st2 cdx orig2 pres
                  else
                    Except.ok (logMsg st1 LogMsg.revisitLoop, cdx, none)
            else
              nonRevisit db env st1 cdx remote
  termination_by 2 - depth
  decreasing_by omega

/-- The underlying stream reader wrapped by a `PayloadBufferingReader`:
the ordered chunks it will yield in the current iteration, and the value
its `limit` field holds once exhausted (`0` exactly when the expected
byte count was fully consumed). -/
structure UnderlyingReader where
  chunks : List (List Nat)
  limitAfter : Int
  deriving DecidableEq, Repr

/-- Mutable instance state of `PayloadBufferingReader` (the `db` back
pointer is passed separately as `Env`/`useRefCounts`; `reader` is the
separately threaded `UnderlyingReader`). -/
structure PayloadBufferingReader where
  digest : Option String
  url : String
  chunks : List (List Nat)
  size : Nat
  fullbuff : Option (List Nat)
  commit : Bool
  alreadyRead : Bool
  deriving DecidableEq, Repr

/-- The `PayloadBufferingReader` constructor: empty buffer, zero size,
no full buffer yet, committing enabled, not yet read. -/
def mkPayloadBufferingReader (digest : Option String) (url : String) :
    PayloadBufferingReader :=
  { digest := digest, url := url, chunks := [], size := 0, fullbuff := none,
    commit := true, alreadyRead := false }

/-- `PayloadBufferingReader.setLimitSkip(limit, skip)`: when `limit` is
finite (not `-1`) and `skip > 0`, committing is disabled for this
instance; the call is also forwarded to the underlying reader (external,
not modelled beyond its effect on `chunks`/`limitAfter`). -/
def setLimitSkip (r : PayloadBufferingReader) (limit : Int) (skip : Int) :
    PayloadBufferingReader :=
  if limit ≠ -1 ∧ skip > 0 then { r with commit := false } else r

/-- `BaseAsyncIterReader.concatChunks(chunks, size)`: in-order
concatenation of the buffered chunks into one contiguous buffer. -/
def concatChunks (chunks : List (List Nat)) (_size : Nat) : List Nat :=
  chunks.flatten

/-- Total byte length of a chunk list (the running `this.size`). -/
def totalBytes (chunks : List (List Nat)) : Nat :=
  (chunks.map List.length).sum

/-- Result of one iteration session over a `PayloadBufferingReader`:
the chunks yielded to the consumer, the updated reader, the updated
underlying reader, and the updated store state. -/
structure IterResult where
  yielded : List (List Nat)
  reader : PayloadBufferingReader
  source : UnderlyingReader
  st : DBState
  deriving DecidableEq, Repr

/-- One session of the async iterator `PayloadBufferingReader
[Symbol.asyncIterator]`, in which the consumer pulls at most `n` chunks.
If `alreadyRead` is set, the generator returns immediately, yielding
nothing.  Otherwise each chunk pulled from the underlying reader is
appended to the buffer (tracking `size`) and yielded to the consumer.
When the consumer stops early (`n` smaller than the chunks available) the
generator is left suspended mid-loop: no epilogue runs.  When the
underlying stream is exhausted, the epilogue concatenates the buffer into
`fullbuff`; if the underlying `limit` is not `0` it logs the
"Expected payload not consumed" warning, otherwise if `commit` is still
enabled it commits `(fullbuff, digest)` to the dedup store; finally the
chunk buffer is released and `alreadyRead` is set. -/
def iterateUpTo (env : Env) (useRefCounts : Bool)
    (r : PayloadBufferingReader) (u : UnderlyingReader) (st : DBState)
    (n : Nat) : IterResult :=
  if r.alreadyRead then ⟨[], r, u, st⟩
  else if n < u.chunks.length then
    let taken := u.chunks.take n
    ⟨taken,
     { r with chunks := r.chunks ++ taken, size := r.size + totalBytes taken },
     { u with chunks := u.chunks.drop n }, st⟩
  else
    let taken := u.chunks
    let chunks := r.chunks ++ taken
    let size := r.size + totalBytes taken
    let fullbuff := concatChunks chunks size
    let st1 :=
      if u.limitAfter ≠ 0 then logMsg st (LogMsg.payloadNotConsumed u.limitAfter)
      else if r.commit then
        commitPayload env useRefCounts (some (JSVal.bytes fullbuff)) r.digest st
      else st
    ⟨taken,
     { r with chunks := [], size := size, fullbuff := some fullbuff,
              alreadyRead := true },
     { u with chunks := [] }, st1⟩

/-- A sequence of iteration sessions over the same reader instance, the
consumer pulling `n` chunks in each session of `ns`. -/
def iterateMany (env : Env) (useRefCounts : Bool)
    (r : PayloadBufferingReader) (u : UnderlyingReader) (st : DBState) :
    List Nat → PayloadBufferingReader × UnderlyingReader × DBState
  | [] => (r, u, st)
  | n :: ns =>
      let out := iterateUpTo env useRefCounts r u st n
      iterateMany env useRefCounts out.reader out.source out.st ns

/-! ### Concrete scenario environments

Closed instances used to evaluate the embedded functions at concrete
inputs (for code-bug exhibits and for witnesses of the hypothesis-bearing
theorems). -/

/-- The empty initial store state. -/
def st0 : DBState := ⟨[], [], [], [], 0, 0⟩

/-- A neutral environment: no local payloads, no catalog hits, fetches
fail without a status, parsing yields nothing, stores never fault. -/
def envBase : Env :=
  { localPayload := fun _ _ => none
    lookupUrl := fun _ _ => none
    resolveURL := fun p b => b ++ p
    getRange := fun _ _ _ => FetchOutcome.fail none
    parse := fun _ => none
    resourcePutFails := fun _ => false
    payloadPutFails := false }

/-- A `RemoteArchiveDB` built with a configured loader object. -/
def dbLoaderVar : RemoteArchiveDB := mkRemoteArchiveDB (Sum.inr 5) none

/-- A `RemoteArchiveDB` built with a url prefix string. -/
def dbPrefixVar : RemoteArchiveDB :=
  mkRemoteArchiveDB (Sum.inl "http://arch/") none

/-- A record source locator. -/
def src1 : Source := ⟨"1.warc", 0, 500⟩

/-- Environment whose remote fetch always fails with HTTP 401. -/
def env401 : Env :=
  { envBase with getRange := fun _ _ _ => FetchOutcome.fail (some 401) }

/-- Environment whose remote fetch always fails with HTTP 403. -/
def env403 : Env :=
  { envBase with getRange := fun _ _ _ => FetchOutcome.fail (some 403) }

/-- Environment whose remote fetch always fails with HTTP 500. -/
def env500 : Env :=
  { envBase with getRange := fun _ _ _ => FetchOutcome.fail (some 500) }

/-- A catalog entry awaiting resolution (no response headers yet). -/
def cdxC1 : CDX :=
  { url := "http://x/a", ts := "20200101", digest := some "sha1:ABC",
    mime := some "text/html", respHeaders := none, source := src1,
    extraOpts := none, payload := none }

/-- A fetched record matching `cdxC1` exactly, carrying an inline payload
`[1, 2, 3]` and no streaming reader. -/
def recC1 : ParsedRecord :=
  { url := "http://x/a", ts := "20200101", digest := some "sha1:ABC",
    origURL := none, origTS := none,
    respHeaders := some [("content-type", "text/html")],
    extraOpts := none, payload := some [1, 2, 3], reader := none }

/-- Environment that serves stream `7` for any fetch and parses stream `7`
into `recC1`. -/
def envC1 : Env :=
  { envBase with
    getRange := fun _ _ _ => FetchOutcome.ok 7
    parse := fun s => if s = some 7 then some recC1 else none }

/-- A fetched record matching `cdxC1`'s url/ts but carrying a wrong
digest. -/
def recC3 : ParsedRecord := { recC1 with digest := some "sha1:XYZ" }

/-- Environment that parses stream `7` into the wrong-digest record. -/
def envC3 : Env :=
  { envC1 with parse := fun s => if s = some 7 then some recC3 else none }

/-- `cdxC1` after a successful non-revisit resolution (response headers
copied from the record; url/ts/digest/source untouched). -/
def cdxC1r : CDX := { cdxC1 with respHeaders := recC1.respHeaders }

/-- Expected store state after resolving `cdxC1` against `envC1`: the
entry is persisted, one fetch was issued, the one-argument
`commitPayload(digest)` call failed and was logged, and the dedup store
stayed empty. -/
def stC1r : DBState :=
  { st0 with resources := [cdxC1r], log := [LogMsg.payloadCommitError],
             fetches := 1 }

/-- `envC1` with both storage faults enabled: every catalog put and every
dedup-store transaction fails. -/
def envC9w : Env :=
  { envC1 with resourcePutFails := fun _ => true, payloadPutFails := true }

/-- Catalog entry A of the revisit cycle. -/
def cdxA : CDX :=
  { url := "http://x/a", ts := "1", digest := some "sha1:A",
    mime := some "warc/revisit", respHeaders := none,
    source := ⟨"a.warc", 0, 100⟩, extraOpts := none, payload := none }

/-- Catalog entry B of the revisit cycle. -/
def cdxB : CDX :=
  { url := "http://x/b", ts := "2", digest := some "sha1:B",
    mime := some "warc/revisit", respHeaders := none,
    source := ⟨"b.warc", 0, 100⟩, extraOpts := none, payload := none }

/-- Fetched revisit record for A pointing at B. -/
def recA : ParsedRecord :=
  { url := "http://x/a", ts := "1", digest := some "sha1:A",
    origURL := some "http://x/b", origTS := some "2",
    respHeaders := none, extraOpts := none, payload := none, reader := none }

/-- Fetched revisit record for B pointing back at A. -/
def recB : ParsedRecord :=
  { url := "http://x/b", ts := "2", digest := some "sha1:B",
    origURL := some "http://x/a", origTS := some "1",
    respHeaders := none, extraOpts := none, payload := none, reader := none }

/-- Environment realising a two-entry revisit cycle between `A` and `B`:
each entry's source parses to a revisit record pointing at the other,
no local payloads exist anywhere, and stores never fault. -/
def cycEnv (A B : CDX) (rA rB : ParsedRecord) (sA sB : Nat) : Env :=
  { localPayload := fun _ _ => none
    lookupUrl := fun u _ =>
      if u = A.url then some A else if u = B.url then some B else none
    resolveURL := fun p _ => p
    getRange := fun l _ _ =>
      match l with
      | LoaderV.created u _ =>
          if u = A.source.path then FetchOutcome.ok sA
          else if u = B.source.path then FetchOutcome.ok sB
          else FetchOutcome.fail none
      | LoaderV.obj _ => FetchOutcome.fail none
    parse := fun s =>
      if s = some sA then some rA else if s = some sB then some rB else none
    resourcePutFails := fun _ => false
    payloadPutFails := false }

/-- A `RemoteArchiveDB` in the url-prefix variant with an empty prefix
(so constructed fetch urls are just the source paths). -/
def dbCyc : RemoteArchiveDB := mkRemoteArchiveDB (Sum.inl "") none

/-- Entry B with resolved headers and a non-revisit mime, so its
resolution early-returns its locally stored payload. -/
def cdxB9 : CDX :=
  { cdxB with respHeaders := some [("a", "b")], mime := some "text/html" }

/-- Environment for the revisit-path storage failure: A's record revisits
B, B has a locally available payload, and the catalog put of the updated
entry A fails. -/
def envC9c : Env :=
  { envBase with
    localPayload := fun _ c => if c.url = "http://x/b" then some [9, 9] else none
    lookupUrl := fun u _ => if u = "http://x/b" then some cdxB9 else none
    resolveURL := fun p _ => p
    getRange := fun l _ _ =>
      match l with
      | LoaderV.created u _ =>
          if u = "a.warc" then FetchOutcome.ok 1 else FetchOutcome.fail none
      | LoaderV.obj _ => FetchOutcome.fail none
    parse := fun s => if s = some 1 then some recA else none
    resourcePutFails := fun c => c.url = "http://x/a" }

/-- A three-chunk underlying stream, fully consumable (`limit` reaches
`0`). -/
def u0 : UnderlyingReader := ⟨[[1, 2], [3], [4, 5, 6]], 0⟩

/-- A truncated underlying stream: `limit` still reports `7` unread bytes
at exhaustion. -/
def uBad : UnderlyingReader := ⟨[[1, 2], [3]], 7⟩

/-- A fresh buffering reader bound to digest `sha1:D`. -/
def r0 : PayloadBufferingReader :=
  mkPayloadBufferingReader (some "sha1:D") "http://x/a"

/-! ### Helper lemmas -/

/-- A successful `loadSource` changes the state only by bumping the ghost
fetch counter. -/
theorem loadSource_ok_state (db : RemoteArchiveDB) (env : Env) (st : DBState)
    (s : Source) (st2 : DBState) (x : Option Nat)
    (h : loadSource db env st s = Except.ok (st2, x)) : st2 = incFetch st := by
  unfold loadSource at h
  split at h <;> split at h <;>
    first
    | (split at h <;> simp_all)
    | simp_all

/-- Upserting a key makes it retrievable. -/
theorem getAssoc_setAssoc_self {α : Type} (l : List (String × α)) (k : String)
    (v : α) : getAssoc (setAssoc l k v) k = some v := by
  induction l with
  | nil => simp [setAssoc, getAssoc]
  | cons p rest ih =>
      obtain ⟨k', v'⟩ := p
      by_cases hk : k' = k <;> simp [setAssoc, getAssoc, hk, ih]

/-- With committing disabled, one iteration session never touches the
dedup store, never bumps the commit counter, and leaves committing
disabled. -/
theorem iterateUpTo_noCommit (env : Env) (urc : Bool)
    (r : PayloadBufferingReader) (u : UnderlyingReader) (st : DBState) (n : Nat)
    (hc : r.commit = false) :
    (iterateUpTo env urc r u st n).st.payloadStore = st.payloadStore ∧
    (iterateUpTo env urc r u st n).st.commitCount = st.commitCount ∧
    (iterateUpTo env urc r u st n).reader.commit = false := by
  unfold iterateUpTo
  split
  · exact ⟨rfl, rfl, hc⟩
  · split
    · exact ⟨rfl, rfl, hc⟩
    · simp only [hc]
      split
      · simp [logMsg]
      · simp

/-- With committing disabled, any sequence of iteration sessions never
touches the dedup store. -/
theorem iterateMany_noCommit (env : Env) (urc : Bool) (ns : List Nat) :
    ∀ (r : PayloadBufferingReader) (u : UnderlyingReader) (st : DBState),
    r.commit = false →
    (iterateMany env urc r u st ns).2.2.payloadStore = st.payloadStore ∧
    (iterateMany env urc r u st ns).2.2.commitCount = st.commitCount := by
  induction ns with
  | nil => intro r u st _; exact ⟨rfl, rfl⟩
  | cons n ns ih =>
      intro r u st hc
      obtain ⟨h1, h2, h3⟩ := iterateUpTo_noCommit env urc r u st n hc
      unfold iterateMany
      obtain ⟨g1, g2⟩ := ih (iterateUpTo env urc r u st n).reader
        (iterateUpTo env urc r u st n).source (iterateUpTo env urc r u st n).st h3
      exact ⟨g1.trans h1, g2.trans h2⟩

/-- A correctly invoked `commitPayload` (bytes plus a defined digest key,
store not faulting) performs exactly one successful put, making the bytes
retrievable under the digest. -/
theorem commitPayload_bytes_ok (env : Env) (urc : Bool) (bs : List Nat)
    (d : String) (st : DBState) (hfail : env.payloadPutFails = false) :
    (commitPayload env urc (some (JSVal.bytes bs)) (some d) st).commitCount
      = st.commitCount + 1 ∧
    getAssoc (commitPayload env urc (some (JSVal.bytes bs)) (some d) st).payloadStore d
      = some (JSVal.bytes bs) := by
  unfold commitPayload
  rw [if_neg (by simp [truthyVal])]
  simp only [hfail, Bool.false_eq_true, if_false]
  constructor
  · split
    · split <;> simp
    · simp
  · split
    · split <;> simp [getAssoc_setAssoc_self]
    · simp [getAssoc_setAssoc_self]

/-- The revisit tail keeps the identity fields of the entry. -/
theorem finishRevisit_frame (env : Env) (st : DBState) (cdx orig : CDX)
    (p : LPResult) (st' : DBState) (cdx' : CDX) (r : Option LPResult)
    (h : finishRevisit env st cdx orig p = Except.ok (st', cdx', r)) :
    cdx'.url = cdx.url ∧ cdx'.ts = cdx.ts ∧ cdx'.digest = cdx.digest ∧
    cdx'.source = cdx.source := by
  unfold finishRevisit at h
  simp only [] at h
  split at h
  · exact absurd h (by simp)
  · injection h with h1
    injection h1 with h2 h3
    injection h3 with h4 h5
    subst h4
    simp

/-- The non-revisit tail keeps the identity fields of the entry whenever
the record's digest was validated equal to the entry's. -/
theorem nonRevisit_frame (db : RemoteArchiveDB) (env : Env) (st : DBState)
    (cdx : CDX) (remote : ParsedRecord) (st' : DBState) (cdx' : CDX)
    (r : Option LPResult) (hd : remote.digest = cdx.digest)
    (h : nonRevisit db env st cdx remote = Except.ok (st', cdx', r)) :
    cdx'.url = cdx.url ∧ cdx'.ts = cdx.ts ∧ cdx'.digest = cdx.digest ∧
    cdx'.source = cdx.source := by
  unfold nonRevisit at h
  simp only [] at h
  repeat' split at h
  all_goals
    injection h with h1
  all_goals
    injection h1 with h2 h3
  all_goals
    injection h3 with h4 h5
  all_goals
    subst h4
  all_goals
    simp [hd]

/-- The non-revisit tail of a record carrying an inline payload resolves
to that payload under every environment, in particular under failing
stores. -/
theorem nonRevisit_payload (db : RemoteArchiveDB) (env : Env) (st : DBState)
    (cdx : CDX) (remote : ParsedRecord) (b : List Nat)
    (hpay : remote.payload = some b) :
    (nonRevisit db env st cdx remote).map (fun x => x.2.2)
      = Except.ok (some (LPResult.bytes b)) := by
  unfold nonRevisit
  simp only []
  rw [hpay]
  rw [if_neg (by simp)]
  rfl

/-- Concrete evaluation: resolving `cdxC1` against `envC1` returns the
inline payload and the store state `stC1r` (in which the dedup store is
still empty because of the one-argument `commitPayload(digest)` call). -/
theorem loadPayload_envC1_eval :
    loadPayload dbPrefixVar envC1 st0 cdxC1 0 =
      Except.ok (stC1r, cdxC1r, some (LPResult.bytes [1, 2, 3])) := by
  unfold loadPayload
  rw [show envC1.localPayload st0.payloadStore cdxC1 = none from rfl]
  rw [show loadSource dbPrefixVar envC1 st0 cdxC1.source =
      Except.ok (incFetch st0, some 7) from rfl]
  simp only [Option.isSome_none, Bool.false_eq_true, false_and, if_false]
  rw [show envC1.parse (some 7) = some recC1 from rfl]
  dsimp only
  rw [if_neg (by decide), if_neg (by decide), if_neg (by decide),
    if_neg (by decide)]
  rw [show nonRevisit dbPrefixVar envC1 (incFetch st0) cdxC1 recC1 =
      Except.ok (stC1r, cdxC1r, some (LPResult.bytes [1, 2, 3])) from by decide]

/-! ### Claim theorems -/

/-- C1: the claim states that a validated, non-revisit record carrying an
inline payload has that payload committed to the dedup store so that the
store afterwards maps the record's digest to the payload bytes.  The code
instead calls `this.commitPayload(digest)` with a single argument, so the
bytes never reach `commitPayload`, the keyed put fails and is logged, and
the dedup store ends up with no entry under the digest — while the inline
payload `[1, 2, 3]` is still returned to the caller and the catalog entry
is persisted.  This theorem evaluates the embedded `loadPayload` at such
an input and exhibits the divergence. -/
theorem C1_inline_payload_commit_bug :
    loadPayload dbPrefixVar envC1 st0 cdxC1 0 =
      Except.ok (stC1r, cdxC1r, some (LPResult.bytes [1, 2, 3])) ∧
    getAssoc stC1r.payloadStore "sha1:ABC" = none ∧
    stC1r.commitCount = 0 ∧
    stC1r.log = [LogMsg.payloadCommitError] :=
  ⟨loadPayload_envC1_eval, rfl, rfl, rfl⟩

/-- C2: the claim states that a 401/403 fetch failure signals
`AuthNeeded` carrying the fetched URL under either construction variant,
and that other failures resolve to "no payload" without throwing.  In the
code the `throw new AuthNeeded(url)` inside the `catch` references a
variable `url` that is `const`-scoped to the `else` block of the loader
selection, so in both variants a 401/403 raises a `ReferenceError`
instead of `AuthNeeded`; a 500 does resolve to "no payload" without
throwing.  This theorem evaluates the embedded `loadSource` at all three
inputs. -/
theorem C2_auth_needed_reference_error :
    loadSource dbLoaderVar env401 st0 src1 =
      Except.error (JSError.referenceError "url") ∧
    loadSource dbPrefixVar env403 st0 src1 =
      Except.error (JSError.referenceError "url") ∧
    loadSource dbPrefixVar env500 st0 src1 = Except.ok (incFetch st0, none) := by
  refine ⟨?_, ?_, ?_⟩ <;> decide

/-- C3: when the fetched record's parsed url, ts or digest differs from
the requested catalog entry's, `loadPayload` logs the mismatch and
returns "no payload", with the dedup store, the catalog store and the
commit counter unchanged and the entry returned unmodified. -/
theorem C3_validation_mismatch_no_write (db : RemoteArchiveDB) (env : Env)
    (st : DBState) (cdx : CDX) (depth : Nat) (st2 : DBState) (sid : Nat)
    (r : ParsedRecord)
    (hloc : env.localPayload st.payloadStore cdx = none)
    (hsrc : loadSource db env st cdx.source = Except.ok (st2, some sid))
    (hpar : env.parse (some sid) = some r)
    (hmis : r.url ≠ cdx.url ∨ r.ts ≠ cdx.ts ∨ r.digest ≠ cdx.digest) :
    ∃ m : LogMsg,
      loadPayload db env st cdx depth = Except.ok (logMsg st2 m, cdx, none) ∧
      (logMsg st2 m).payloadStore = st.payloadStore ∧
      (logMsg st2 m).resources = st.resources ∧
      (logMsg st2 m).commitCount = st.commitCount := by
  have hst2 : st2 = incFetch st := loadSource_ok_state _ _ _ _ _ _ hsrc
  have hps : ∀ m : LogMsg, (logMsg st2 m).payloadStore = st.payloadStore ∧
      (logMsg st2 m).resources = st.resources ∧
      (logMsg st2 m).commitCount = st.commitCount := by
    intro m
    simp [hst2, logMsg, incFetch]
  unfold loadPayload
  rw [hloc]
  simp only [Option.isSome_none, Bool.false_eq_true, false_and, if_false,
    hsrc, hpar]
  by_cases hu : r.url = cdx.url
  case neg =>
    exact ⟨LogMsg.wrongUrl cdx.url r.url, by rw [if_pos hu], hps _⟩
  case pos =>
    rw [if_neg (by simp [hu])]
    by_cases ht : r.ts = cdx.ts
    case neg =>
      exact ⟨LogMsg.wrongTs cdx.ts r.ts, by rw [if_pos ht], hps _⟩
    case pos =>
      rw [if_neg (by simp [ht])]
      have hd : r.digest ≠ cdx.digest := by
        rcases hmis with h | h | h
        · exact absurd hu h
        · exact absurd ht h
        · exact h
      exact ⟨LogMsg.wrongDigest cdx.digest r.digest, by rw [if_pos hd], hps _⟩

/-- C3 witness: a concrete wrong-digest record makes `loadPayload` return
"no payload" with nothing written. -/
theorem C3_witness :
    ∃ m : LogMsg,
      loadPayload dbPrefixVar envC3 st0 cdxC1 0 =
        Except.ok (logMsg (incFetch st0) m, cdxC1, none) ∧
      (logMsg (incFetch st0) m).payloadStore = st0.payloadStore ∧
      (logMsg (incFetch st0) m).resources = st0.resources ∧
      (logMsg (incFetch st0) m).commitCount = st0.commitCount :=
  C3_validation_mismatch_no_write dbPrefixVar envC3 st0 cdxC1 0 (incFetch st0)
    7 recC3 rfl rfl rfl (Or.inr (Or.inr (by decide)))

/-- C4: on a cyclic pair of revisit records (A revisiting B and B
revisiting A, neither with a locally stored payload), resolution
terminates with "no payload" after exactly 3 sequential fetch attempts
(depths 0, 1 and 2) — at depth 2 the guard `depth < 2` fails, the loop
warning is logged and no further recursion happens. -/
theorem C4_revisit_cycle_terminates (A B : CDX) (rA rB : ParsedRecord)
    (sA sB : Nat) (st : DBState)
    (hAB : A.url ≠ B.url)
    (hpath : A.source.path ≠ B.source.path)
    (hsid : sA ≠ sB)
    (hAu : rA.url = A.url) (hAt : rA.ts = A.ts) (hAd : rA.digest = A.digest)
    (hBu : rB.url = B.url) (hBt : rB.ts = B.ts) (hBd : rB.digest = B.digest)
    (hoA : rA.origURL = some B.url) (hBne : B.url ≠ "")
    (hoB : rB.origURL = some A.url) (hAne : A.url ≠ "") :
    loadPayload dbCyc (cycEnv A B rA rB sA sB) st A 0 =
      Except.ok (logMsg (incFetch (incFetch (incFetch st))) LogMsg.revisitLoop,
        A, none) ∧
    (logMsg (incFetch (incFetch (incFetch st))) LogMsg.revisitLoop).fetches =
      st.fetches + 3 := by
  set E := cycEnv A B rA rB sA sB with hE
  have hLSA : ∀ s : DBState, loadSource dbCyc E s A.source =
      Except.ok (incFetch s, some sA) := by
    intro s
    unfold loadSource
    simp [dbCyc, mkRemoteArchiveDB, hE, cycEnv]
  have hLSB : ∀ s : DBState, loadSource dbCyc E s B.source =
      Except.ok (incFetch s, some sB) := by
    intro s
    unfold loadSource
    simp [dbCyc, mkRemoteArchiveDB, hE, cycEnv, hpath, Ne.symm hpath]
  have hPA : E.parse (some sA) = some rA := by
    simp [hE, cycEnv]
  have hPB : E.parse (some sB) = some rB := by
    simp [hE, cycEnv, hsid, Ne.symm hsid]
  have hLB : E.lookupUrl B.url rA.origTS = some B := by
    simp [hE, cycEnv, Ne.symm hAB]
  have hLA : E.lookupUrl A.url rB.origTS = some A := by
    simp [hE, cycEnv]
  have hLoc : ∀ (ps : List (String × JSVal)) (c : CDX),
      E.localPayload ps c = none := by
    intro ps c
    simp [hE, cycEnv]
  have stepA2 : ∀ s : DBState, loadPayload dbCyc E s A 2 =
      Except.ok (logMsg (incFetch s) LogMsg.revisitLoop, A, none) := by
    intro s
    unfold loadPayload
    rw [hLoc]
    simp only [Option.isSome_none, Bool.false_eq_true, false_and, if_false,
      hLSA s, hPA]
    rw [if_neg (by simp [hAu]), if_neg (by simp [hAt]), if_neg (by simp [hAd]),
      if_pos (by simp [truthyStr, hoA, hBne])]
    rw [hoA]
    simp only [Option.getD_some, hLB]
    rfl
  have stepB1 : ∀ s : DBState, loadPayload dbCyc E s B 1 =
      Except.ok (logMsg (incFetch (incFetch s)) LogMsg.revisitLoop, B, none) := by
    intro s
    unfold loadPayload
    rw [hLoc]
    simp only [Option.isSome_none, Bool.false_eq_true, false_and, if_false,
      hLSB s, hPB]
    rw [if_neg (by simp [hBu]), if_neg (by simp [hBt]), if_neg (by simp [hBd]),
      if_pos (by simp [truthyStr, hoB, hAne])]
    rw [hoB]
    simp only [Option.getD_some, hLA]
    rw [dif_pos (show (1 : Nat) < 2 by omega), stepA2 (incFetch s)]
  have step0 : loadPayload dbCyc E st A 0 =
      Except.ok (logMsg (incFetch (incFetch (incFetch st))) LogMsg.revisitLoop,
        A, none) := by
    unfold loadPayload
    rw [hLoc]
    simp only [Option.isSome_none, Bool.false_eq_true, false_and, if_false,
      hLSA st, hPA]
    rw [if_neg (by simp [hAu]), if_neg (by simp [hAt]), if_neg (by simp [hAd]),
      if_pos (by simp [truthyStr, hoA, hBne])]
    rw [hoA]
    simp only [Option.getD_some, hLB]
    rw [dif_pos (show (0 : Nat) < 2 by omega), stepB1 (incFetch st)]
  exact ⟨step0, by simp [logMsg, incFetch]⟩

/-- C4 witness: the concrete cycle between `cdxA` and `cdxB` resolves to
"no payload" after exactly 3 fetches. -/
theorem C4_witness :
    loadPayload dbCyc (cycEnv cdxA cdxB recA recB 1 2) st0 cdxA 0 =
      Except.ok (logMsg (incFetch (incFetch (incFetch st0))) LogMsg.revisitLoop,
        cdxA, none) ∧
    (logMsg (incFetch (incFetch (incFetch st0))) LogMsg.revisitLoop).fetches =
      st0.fetches + 3 :=
  C4_revisit_cycle_terminates cdxA cdxB recA recB 1 2 st0 (by decide)
    (by decide) (by decide) rfl rfl rfl rfl rfl rfl rfl (by decide) rfl
    (by decide)

/-- C5: fully consuming a fresh `PayloadBufferingReader` (underlying
`limit` reaching `0`, committing still enabled, store not faulting)
yields exactly the underlying chunks, performs exactly one dedup-store
commit, and the committed buffer is the in-order concatenation of the
chunks yielded to the consumer; the underlying source is left fully
consumed (no second read). -/
theorem C5_full_stream_single_commit (env : Env) (urc : Bool) (d url : String)
    (u : UnderlyingReader) (st : DBState) (n : Nat)
    (hn : u.chunks.length ≤ n) (hlim : u.limitAfter = 0)
    (hfail : env.payloadPutFails = false) :
    (iterateUpTo env urc (mkPayloadBufferingReader (some d) url) u st n).yielded
      = u.chunks ∧
    (iterateUpTo env urc (mkPayloadBufferingReader (some d) url) u st n).st.commitCount
      = st.commitCount + 1 ∧
    getAssoc (iterateUpTo env urc (mkPayloadBufferingReader (some d) url) u st n).st.payloadStore d
      = some (JSVal.bytes
          (concatChunks
            (iterateUpTo env urc (mkPayloadBufferingReader (some d) url) u st n).yielded
            (totalBytes u.chunks))) ∧
    (iterateUpTo env urc (mkPayloadBufferingReader (some d) url) u st n).source.chunks
      = [] := by
  unfold iterateUpTo
  rw [if_neg (by simp [mkPayloadBufferingReader]),
    if_neg (Nat.not_lt.mpr hn)]
  simp only [mkPayloadBufferingReader, hlim, if_true, List.nil_append,
    Nat.zero_add]
  refine ⟨?_, ?_, ?_, ?_⟩
  · simp
  · exact (commitPayload_bytes_ok env urc _ d st hfail).1
  · exact (commitPayload_bytes_ok env urc _ d st hfail).2
  · simp

/-- C5 witness: consuming the concrete three-chunk stream `u0` commits
`[1, 2, 3, 4, 5, 6]` under `sha1:D` exactly once. -/
theorem C5_witness :
    (iterateUpTo envBase false (mkPayloadBufferingReader (some "sha1:D") "http://x/a") u0 st0 5).yielded
      = u0.chunks ∧
    (iterateUpTo envBase false (mkPayloadBufferingReader (some "sha1:D") "http://x/a") u0 st0 5).st.commitCount
      = st0.commitCount + 1 ∧
    getAssoc (iterateUpTo envBase false (mkPayloadBufferingReader (some "sha1:D") "http://x/a") u0 st0 5).st.payloadStore "sha1:D"
      = some (JSVal.bytes
          (concatChunks
            (iterateUpTo envBase false (mkPayloadBufferingReader (some "sha1:D") "http://x/a") u0 st0 5).yielded
            (totalBytes u0.chunks))) ∧
    (iterateUpTo envBase false (mkPayloadBufferingReader (some "sha1:D") "http://x/a") u0 st0 5).source.chunks
      = [] :=
  C5_full_stream_single_commit envBase false "sha1:D" "http://x/a" u0 st0 5
    (by decide) rfl rfl

/-- C6: when the underlying reader still reports unread bytes at
exhaustion (`limit` not `0`), the reader logs the
"Expected payload not consumed" warning and performs no dedup-store
commit. -/
theorem C6_truncated_stream_no_commit (env : Env) (urc : Bool)
    (r : PayloadBufferingReader) (u : UnderlyingReader) (st : DBState) (n : Nat)
    (ha : r.alreadyRead = false) (hn : u.chunks.length ≤ n)
    (hlim : u.limitAfter ≠ 0) :
    (iterateUpTo env urc r u st n).st =
      logMsg st (LogMsg.payloadNotConsumed u.limitAfter) ∧
    (iterateUpTo env urc r u st n).st.payloadStore = st.payloadStore ∧
    (iterateUpTo env urc r u st n).st.commitCount = st.commitCount := by
  unfold iterateUpTo
  rw [if_neg (by simp [ha]), if_neg (Nat.not_lt.mpr hn)]
  simp only []
  rw [if_pos hlim]
  exact ⟨rfl, by simp [logMsg], by simp [logMsg]⟩

/-- C6 witness: the truncated stream `uBad` (7 bytes still expected)
produces the warning and leaves the dedup store untouched. -/
theorem C6_witness :
    (iterateUpTo envBase false r0 uBad st0 5).st =
      logMsg st0 (LogMsg.payloadNotConsumed uBad.limitAfter) ∧
    (iterateUpTo envBase false r0 uBad st0 5).st.payloadStore = st0.payloadStore ∧
    (iterateUpTo envBase false r0 uBad st0 5).st.commitCount = st0.commitCount :=
  C6_truncated_stream_no_commit envBase false r0 uBad st0 5 rfl (by decide)
    (by decide)

/-- C7: after `setLimitSkip` with a finite limit and a positive skip,
committing is permanently disabled: no sequence of iteration sessions
over that reader instance ever writes to the dedup store or bumps the
commit counter. -/
theorem C7_setLimitSkip_disables_commit (env : Env) (urc : Bool)
    (r : PayloadBufferingReader) (limit skip : Int) (u : UnderlyingReader)
    (st : DBState) (ns : List Nat)
    (hl : limit ≠ -1) (hs : 0 < skip) :
    (iterateMany env urc (setLimitSkip r limit skip) u st ns).2.2.payloadStore
      = st.payloadStore ∧
    (iterateMany env urc (setLimitSkip r limit skip) u st ns).2.2.commitCount
      = st.commitCount := by
  have hc : (setLimitSkip r limit skip).commit = false := by
    unfold setLimitSkip
    rw [if_pos ⟨hl, hs⟩]
  exact iterateMany_noCommit env urc ns _ u st hc

/-- C7 witness: after `setLimitSkip(10, 3)` on the fresh reader `r0`,
three consumption sessions commit nothing. -/
theorem C7_witness :
    (iterateMany envBase false (setLimitSkip r0 10 3) u0 st0 [1, 5, 2]).2.2.payloadStore
      = st0.payloadStore ∧
    (iterateMany envBase false (setLimitSkip r0 10 3) u0 st0 [1, 5, 2]).2.2.commitCount
      = st0.commitCount :=
  C7_setLimitSkip_disables_commit envBase false r0 10 3 u0 st0 [1, 5, 2]
    (by decide) (by decide)

/-- C8: once a full consumption session has completed (consumer pulled at
least all available chunks, so `alreadyRead` is set), a further iteration
session yields no chunks and changes nothing — the reader is
single-consumption. -/
theorem C8_single_consumption (env : Env) (urc : Bool)
    (r : PayloadBufferingReader) (u : UnderlyingReader) (st : DBState)
    (n1 n2 : Nat) (hn : u.chunks.length ≤ n1) :
    (iterateUpTo env urc (iterateUpTo env urc r u st n1).reader
        (iterateUpTo env urc r u st n1).source
        (iterateUpTo env urc r u st n1).st n2).yielded = [] ∧
    (iterateUpTo env urc (iterateUpTo env urc r u st n1).reader
        (iterateUpTo env urc r u st n1).source
        (iterateUpTo env urc r u st n1).st n2).st
      = (iterateUpTo env urc r u st n1).st := by
  have halready : (iterateUpTo env urc r u st n1).reader.alreadyRead = true := by
    unfold iterateUpTo
    split
    · assumption
    · rw [if_neg (Nat.not_lt.mpr hn)]
  set out := iterateUpTo env urc r u st n1 with hout
  unfold iterateUpTo
  rw [if_pos halready]
  exact ⟨rfl, rfl⟩

/-- C8 witness: consuming `u0` fully and then iterating again yields
nothing and changes nothing. -/
theorem C8_witness :
    (iterateUpTo envBase false (iterateUpTo envBase false r0 u0 st0 3).reader
        (iterateUpTo envBase false r0 u0 st0 3).source
        (iterateUpTo envBase false r0 u0 st0 3).st 4).yielded = [] ∧
    (iterateUpTo envBase false (iterateUpTo envBase false r0 u0 st0 3).reader
        (iterateUpTo envBase false r0 u0 st0 3).source
        (iterateUpTo envBase false r0 u0 st0 3).st 4).st
      = (iterateUpTo envBase false r0 u0 st0 3).st :=
  C8_single_consumption envBase false r0 u0 st0 3 4 (by decide)

/-- C9 counterexample: the claim says every failure while persisting the
updated catalog entry is caught and the already-obtained payload still
returned.  In the revisit path the catalog put
(`await this.db.put("resources", cdx)`) is not inside any `try`: here
entry A revisits B, B's payload `[9, 9]` is already obtained, and the
failing put makes `loadPayload` propagate the storage error to the caller
instead of returning the payload. -/
theorem C9_revisit_put_error_propagates :
    loadPayload dbCyc envC9c st0 cdxA 0 = Except.error JSError.storeError := by
  have stepB : loadPayload dbCyc envC9c (incFetch st0) cdxB9 1 =
      Except.ok (incFetch st0, cdxB9, some (LPResult.bytes [9, 9])) := by
    unfold loadPayload
    rw [show envC9c.localPayload (incFetch st0).payloadStore cdxB9 =
        some [9, 9] from rfl]
    rw [if_pos (by decide)]
    rfl
  unfold loadPayload
  rw [show envC9c.localPayload st0.payloadStore cdxA = none from rfl]
  rw [show loadSource dbCyc envC9c st0 cdxA.source =
      Except.ok (incFetch st0, some 1) from rfl]
  simp only [Option.isSome_none, Bool.false_eq_true, false_and, if_false]
  rw [show envC9c.parse (some 1) = some recA from rfl]
  dsimp only
  rw [if_neg (by decide), if_neg (by decide), if_neg (by decide),
    if_pos (by decide)]
  rw [show envC9c.lookupUrl (recA.origURL.getD "") recA.origTS =
      some cdxB9 from by decide]
  dsimp only
  rw [dif_pos (show (0 : Nat) < 2 by omega), stepB]
  dsimp only
  rw [show finishRevisit envC9c (incFetch st0) cdxA cdxB9
      (LPResult.bytes [9, 9]) = Except.error JSError.storeError from by decide]

/-- C9 as amended: in the non-revisit path, an already-obtained inline
payload is returned by `loadPayload` under every environment — in
particular when the catalog put and the dedup-store transaction fail —
because that path's persistence runs inside a `try` whose `catch` only
logs, and `commitPayload` catches its own store errors (it is a total
function of the state in this embedding). -/
theorem C9_nonrevisit_errors_swallowed (db : RemoteArchiveDB) (env : Env)
    (st : DBState) (cdx : CDX) (depth : Nat) (st2 : DBState) (sid : Nat)
    (r : ParsedRecord) (b : List Nat)
    (hloc : env.localPayload st.payloadStore cdx = none)
    (hsrc : loadSource db env st cdx.source = Except.ok (st2, some sid))
    (hpar : env.parse (some sid) = some r)
    (hu : r.url = cdx.url) (ht : r.ts = cdx.ts) (hd : r.digest = cdx.digest)
    (hnorev : truthyStr r.origURL = false)
    (hpay : r.payload = some b) :
    (loadPayload db env st cdx depth).map (fun x => x.2.2)
      = Except.ok (some (LPResult.bytes b)) := by
  unfold loadPayload
  rw [hloc]
  simp only [Option.isSome_none, Bool.false_eq_true, false_and, if_false,
    hsrc, hpar]
  rw [if_neg (by simp [hu]), if_neg (by simp [ht]), if_neg (by simp [hd]),
    if_neg (by simp [hnorev])]
  exact nonRevisit_payload db env st2 cdx r b hpay

/-- C9 witness: under `envC9w` (catalog put and dedup transaction both
failing) the inline payload `[1, 2, 3]` is still returned. -/
theorem C9_witness :
    (loadPayload dbPrefixVar envC9w st0 cdxC1 0).map (fun x => x.2.2)
      = Except.ok (some (LPResult.bytes [1, 2, 3])) :=
  C9_nonrevisit_errors_swallowed dbPrefixVar envC9w st0 cdxC1 0 (incFetch st0)
    7 recC1 [1, 2, 3] rfl rfl rfl rfl rfl rfl rfl rfl

/-- C10: every invocation of `loadPayload` that returns a payload or
reader leaves the entry's identity fields — `url`, `ts`, `digest` (and
the `source` locator) — unchanged in the returned entry snapshot; the
`digest` assignment in the non-revisit path writes back a value already
validated equal to the entry's. -/
theorem C10_identity_fields_preserved (db : RemoteArchiveDB) (env : Env)
    (st : DBState) (cdx : CDX) (depth : Nat) (st' : DBState) (cdx' : CDX)
    (res : LPResult)
    (h : loadPayload db env st cdx depth = Except.ok (st', cdx', some res)) :
    cdx'.url = cdx.url ∧ cdx'.ts = cdx.ts ∧ cdx'.digest = cdx.digest ∧
    cdx'.source = cdx.source := by
  unfold loadPayload at h
  simp only [] at h
  repeat' split at h
  all_goals
    first
    | (injection h with h1; injection h1 with h2 h3; injection h3 with h4 h5;
       subst h4; simp)
    | exact absurd h (by simp)
    | exact finishRevisit_frame _ _ _ _ _ _ _ _ h
    | (refine nonRevisit_frame _ _ _ _ _ _ _ _ ?_ h; simp_all)

/-- C10 witness: the concrete resolution of `cdxC1` returns the entry
with identity fields intact. -/
theorem C10_witness :
    cdxC1r.url = cdxC1.url ∧ cdxC1r.ts = cdxC1.ts ∧
    cdxC1r.digest = cdxC1.digest ∧ cdxC1r.source = cdxC1.source :=
  C10_identity_fields_preserved dbPrefixVar envC1 st0 cdxC1 0 stC1r cdxC1r
    (LPResult.bytes [1, 2, 3]) loadPayload_envC1_eval

end Wabac
